import Mathlib

/-!
Verification of the HTTP test-execution harness of the repository
(`config.py`, `api_automation.py`, `test_runner.py`): session registry,
retry/backoff policy, rate-limit probe, JSON-schema gate and orchestrator.
Each definition is a shallow embedding of the correspondingly named Python
source object; theorems check the specified properties against it.
-/

set_option autoImplicit false

namespace TechnicalTest

/-! ## config.py -/

/-- Shape of `RATE_LIMIT_CONFIG` in `config.py` (lines 102-107). The Python
float literal `0.1` is modelled as the rational number it denotes. -/
structure RateLimitConfig where
  max_requests : Nat
  delay_between_requests : ℚ
  retry_attempts : Nat
  backoff_factor : ℚ
  deriving Repr, DecidableEq

/-- The `RATE_LIMIT_CONFIG` dictionary of `config.py`. -/
def RATE_LIMIT_CONFIG : RateLimitConfig :=
  { max_requests := 100
    delay_between_requests := 1/10
    retry_attempts := 3
    backoff_factor := 2 }

/-- The `DEFAULT_HEADERS` dictionary of `config.py`, as an ordered
key-value list. -/
def DEFAULT_HEADERS : List (String × String) :=
  [("Content-Type", "application/json"),
   ("User-Agent", "QA-Automation-Tests/1.0")]

/-! ## Retry policy (`_create_session` in `api_automation.py`, lines 89-100,
and the urllib3 transport it configures) -/

/-- The keyword arguments `_create_session` passes to `urllib3.util.retry.Retry`. -/
structure RetryPolicy where
  total : Nat
  backoff_factor : ℚ
  status_forcelist : List Nat
  allowed_methods : List String
  deriving Repr, DecidableEq

/-- The `retry_strategy` object built in `_create_session`
(`api_automation.py` lines 90-95). -/
def retry_strategy : RetryPolicy :=
  { total := RATE_LIMIT_CONFIG.retry_attempts
    backoff_factor := RATE_LIMIT_CONFIG.backoff_factor
    status_forcelist := [429, 500, 502, 503, 504]
    allowed_methods := ["HEAD", "GET", "POST", "PUT", "DELETE"] }

/-- Modelled from the urllib3 dependency: `Retry.DEFAULT_BACKOFF_MAX`
(formerly `BACKOFF_MAX`), the hard upper bound on one backoff sleep,
in seconds. -/
def DEFAULT_BACKOFF_MAX : ℚ := 120

/-- Modelled from the urllib3 dependency: `Retry.get_backoff_time`, the
backoff computation of the transport-level retry that `_create_session`
configures. `consecutive_errors_len` is the number of consecutive failed
attempts recorded in the retry history, so the sleep performed before
retry `n` (1-indexed) is `get_backoff_time backoff_factor n`. -/
def get_backoff_time (backoff_factor : ℚ) (consecutive_errors_len : Nat) : ℚ :=
  if consecutive_errors_len ≤ 1 then 0
  else min DEFAULT_BACKOFF_MAX (backoff_factor * 2 ^ (consecutive_errors_len - 1))

/-- Backoff delay slept before retried attempt `n` (1-indexed) under the
policy `_create_session` installs (`backoff_factor = 2`). -/
def backoffDelay (n : Nat) : ℚ :=
  get_backoff_time retry_strategy.backoff_factor n

/-! ## Rate-limit probe (`_test_reqres_rate_limiting`,
`api_automation.py` lines 541-582) -/

/-- Characters stripped by Python `int(s)` before parsing (ASCII whitespace). -/
def isPySpace (c : Char) : Bool :=
  c = ' ' || c = '\t' || c = '\n' || c = '\r' || c = '\x0b' || c = '\x0c'

/-- Value of an ASCII decimal digit string, `none` if any character is not
a digit or the string is empty. -/
def digitsVal : List Char → Option Nat
  | [] => none
  | cs =>
    if cs.all (·.isDigit) then
      some (cs.foldl (fun n c => n * 10 + (c.toNat - 48)) 0)
    else none

/-- Python `int(s)` on an ASCII decimal string: strip surrounding
whitespace, accept an optional sign, then digits; `none` models the
`ValueError` that `int` raises otherwise. -/
def pyInt? (s : String) : Option Int :=
  let cs := ((s.data.dropWhile isPySpace).reverse.dropWhile isPySpace).reverse
  match cs with
  | '+' :: rest => (digitsVal rest).map Int.ofNat
  | '-' :: rest => (digitsVal rest).map (fun n => -(n : Int))
  | _ => (digitsVal cs).map Int.ofNat

/-- One `time.sleep` call made by the probe loop: either the wait of the
429 branch (`time.sleep(wait_time)`, recorded with the requested number of
seconds) or the pacing sleep
`time.sleep(RATE_LIMIT_CONFIG["delay_between_requests"])`. -/
inductive Sleep where
  | retryWait (seconds : Int)
  | interDelay
  deriving Repr, DecidableEq

/-- Outcome of the `make_api_request` call of one probe iteration: a
response with its status code and optional `Retry-After` header value, or
an exception reaching the `except` clause of the iteration. -/
inductive ProbeOutcome where
  | response (status : Nat) (retryAfter : Option String)
  | exception
  deriving Repr, DecidableEq

/-- State threaded through the probe loop: the two counters of
`_test_reqres_rate_limiting`, the number of loop iterations executed, and
the ordered trace of `time.sleep` calls. -/
structure ProbeState where
  successful_requests : Nat
  rate_limited_requests : Nat
  iterations : Nat
  sleeps : List Sleep
  deriving Repr, DecidableEq

/-- Probe state before the loop starts. -/
def probeInit : ProbeState :=
  { successful_requests := 0, rate_limited_requests := 0
    iterations := 0, sleeps := [] }

/-- One iteration of the probe loop (`api_automation.py` lines 557-580).
In the 429 branch, `wait_time = int(retry_after) if retry_after else 5`:
an absent or empty header gives the fallback 5; an unparseable header makes
`int` raise, which the `except` clause of the iteration catches, so no sleep
happens; otherwise `time.sleep(wait_time)` runs and the branch `continue`s
past the pacing sleep. A 200 increments the success counter; every
non-429 response falls through to the pacing sleep. An exception is caught
and the loop `continue`s. -/
def probeIter (st0 : ProbeState) (o : ProbeOutcome) : ProbeState :=
  let st := { st0 with iterations := st0.iterations + 1 }
  match o with
  | .exception => st
  | .response status retryAfter =>
    if status = 429 then
      let st := { st with rate_limited_requests := st.rate_limited_requests + 1 }
      match retryAfter with
      | none => { st with sleeps := st.sleeps ++ [.retryWait 5] }
      | some s =>
        if s = "" then { st with sleeps := st.sleeps ++ [.retryWait 5] }
        else
          match pyInt? s with
          | some n => { st with sleeps := st.sleeps ++ [.retryWait n] }
          | none => st
    else
      let st :=
        if status = 200 then
          { st with successful_requests := st.successful_requests + 1 }
        else st
      { st with sleeps := st.sleeps ++ [.interDelay] }

/-- The probe loop `for i in range(max_requests)` over the sequence of
per-iteration outcomes; the loop body has no `break`, so every outcome is
processed. -/
def probeRun (outcomes : List ProbeOutcome) : ProbeState :=
  outcomes.foldl probeIter probeInit

/-- Sleep calls one probe iteration performs for a given outcome. -/
def iterationSleeps (o : ProbeOutcome) : List Sleep :=
  (probeIter probeInit o).sleeps

/-! ## HTTPSessionManager (`api_automation.py` lines 44-115) -/

/-- One `requests.Session` as configured by `_create_session`: the headers
applied at construction, the mounted retry policy and pool bounds, and a
creation index `sid` standing for Python object identity. -/
structure Session where
  sid : Nat
  headers : List (String × String)
  retries : RetryPolicy
  pool_connections : Nat
  pool_maxsize : Nat
  deriving Repr, DecidableEq

/-- Python `headers or DEFAULT_HEADERS` in `_create_session`: `None` and
the empty dict are falsy and give the defaults. -/
def headersOrDefault : Option (List (String × String)) → List (String × String)
  | none => DEFAULT_HEADERS
  | some h => if h = [] then DEFAULT_HEADERS else h

/-- `_create_session` (`api_automation.py` lines 74-102): a session with
the given or default headers, the `retry_strategy` policy and a pool of
10 connections mounted on both adapters. -/
def _create_session (headers : Option (List (String × String))) (sid : Nat) : Session :=
  { sid := sid
    headers := headersOrDefault headers
    retries := retry_strategy
    pool_connections := 10
    pool_maxsize := 10 }

/-- The `_sessions` dict of the manager (insertion-ordered, like a Python
dict) plus the next creation index. -/
structure HTTPSessionManager where
  _sessions : List (String × Session)
  nextSid : Nat
  deriving Repr, DecidableEq

/-- The manager before any `get_session` call of the process. -/
def initManager : HTTPSessionManager := { _sessions := [], nextSid := 0 }

/-- Dict lookup used by `get_session` (`api_name in self._sessions`,
`self._sessions[api_name]`). -/
def findSession : List (String × Session) → String → Option Session
  | [], _ => none
  | kv :: rest, name => if kv.1 = name then some kv.2 else findSession rest name

/-- `get_session` (lines 59-72): create and store a session on the first
call for a name, return the stored one on every later call (the `headers`
argument is only consulted by the creating call). -/
def get_session (m : HTTPSessionManager) (api_name : String)
    (headers : Option (List (String × String))) : Session × HTTPSessionManager :=
  match findSession m._sessions api_name with
  | some s => (s, m)
  | none =>
    let s := _create_session headers m.nextSid
    (s, { _sessions := m._sessions ++ [(api_name, s)], nextSid := m.nextSid + 1 })

/-- One `get_session` call: its `api_name` and `headers` arguments. -/
structure SessionCall where
  api_name : String
  headers : Option (List (String × String))
  deriving Repr, DecidableEq

/-- A sequence of `get_session` calls within one process lifetime:
returns the final manager and the sessions returned, in call order. -/
def runCalls : HTTPSessionManager → List SessionCall → HTTPSessionManager × List Session
  | m, [] => (m, [])
  | m, c :: cs =>
    ((runCalls (get_session m c.api_name c.headers).2 cs).1,
     (get_session m c.api_name c.headers).1 ::
       (runCalls (get_session m c.api_name c.headers).2 cs).2)

/-- Result of `session.close()` for one registered session; the flag
records whether this particular close raises. -/
def closeSession (raisesOnClose : Bool) : Except String Unit :=
  if raisesOnClose then Except.error "close failed" else Except.ok ()

/-- The `for` loop of `close_all_sessions`: the close of every registered session
is attempted in order; a raising close is caught by the `except` clause of
the loop body and logged as a warning. Returns the names attempted and
the warnings logged. -/
def closeLoop : List (String × Bool) → List String × List String
  | [] => ([], [])
  | (name, r) :: rest =>
    let tail := closeLoop rest
    match closeSession r with
    | Except.ok _ => (name :: tail.1, tail.2)
    | Except.error _ => (name :: tail.1, name :: tail.2)

/-- Observable outcome of one `close_all_sessions` call. -/
structure CloseReport where
  attempted : List String
  warnings : List String
  registry : List (String × Bool)
  deriving Repr, DecidableEq

/-- `close_all_sessions` (lines 104-115): close every session, logging
failures, then `self._sessions.clear()`. The registry is abstracted to
the name of each session and whether its close raises; the `Except` result
records whether the call itself raises. -/
def close_all_sessions (reg : List (String × Bool)) : Except String CloseReport :=
  let r := closeLoop reg
  Except.ok { attempted := r.1, warnings := r.2, registry := [] }

/-! ## Session registry lemmas -/

theorem findSession_append (l : List (String × Session)) (k : String) (s : Session)
    (e : String × Session) (h : findSession l k = some s) :
    findSession (l ++ [e]) k = some s := by
  induction l with
  | nil => simp [findSession] at h
  | cons hd tl ih =>
    by_cases hk : hd.1 = k
    · simpa [findSession, hk] using h
    · simp only [List.cons_append, findSession, if_neg hk] at h ⊢
      exact ih h

theorem findSession_self (l : List (String × Session)) (k : String) (s : Session)
    (h : findSession l k = none) :
    findSession (l ++ [(k, s)]) k = some s := by
  induction l with
  | nil => simp [findSession]
  | cons hd tl ih =>
    by_cases hk : hd.1 = k
    · simp [findSession, hk] at h
    · simp only [List.cons_append, findSession, if_neg hk] at h ⊢
      exact ih h

theorem findSession_none_not_mem (l : List (String × Session)) (k : String)
    (h : findSession l k = none) : k ∉ l.map Prod.fst := by
  induction l with
  | nil => simp
  | cons hd tl ih =>
    by_cases hk : hd.1 = k
    · simp [findSession, hk] at h
    · simp only [findSession, if_neg hk] at h
      simp only [List.map_cons, List.mem_cons]
      rintro (h1 | h2)
      · exact hk h1.symm
      · exact ih h h2

theorem get_session_found (m : HTTPSessionManager) (name : String)
    (h : Option (List (String × String))) (s : Session)
    (hs : findSession m._sessions name = some s) :
    get_session m name h = (s, m) := by
  unfold get_session
  simp [hs]

theorem get_session_find (m : HTTPSessionManager) (name : String)
    (h : Option (List (String × String))) :
    findSession ((get_session m name h).2)._sessions name
      = some ((get_session m name h).1) := by
  unfold get_session
  cases hf : findSession m._sessions name with
  | some s => simp [hf]
  | none =>
    simp only [hf]
    exact findSession_self _ _ _ hf

theorem get_session_preserves (m : HTTPSessionManager) (name k : String)
    (h : Option (List (String × String))) (s : Session)
    (hk : findSession m._sessions k = some s) :
    findSession ((get_session m name h).2)._sessions k = some s := by
  unfold get_session
  cases hf : findSession m._sessions name with
  | some s2 => simpa [hf] using hk
  | none =>
    simp only [hf]
    exact findSession_append _ _ _ _ hk

theorem runCalls_preserves (cs : List SessionCall) :
    ∀ (m : HTTPSessionManager) (k : String) (s : Session),
      findSession m._sessions k = some s →
      findSession ((runCalls m cs).1)._sessions k = some s := by
  induction cs with
  | nil => intro m k s h; simpa [runCalls] using h
  | cons c rest ih =>
    intro m k s h
    simp only [runCalls]
    exact ih _ _ _ (get_session_preserves m c.api_name k c.headers s h)

theorem runCalls_result_final (cs : List SessionCall) :
    ∀ (m : HTTPSessionManager) (c : SessionCall) (r : Session),
      (c, r) ∈ cs.zip (runCalls m cs).2 →
      findSession ((runCalls m cs).1)._sessions c.api_name = some r := by
  induction cs with
  | nil => intro m c r h; simp [runCalls] at h
  | cons c0 rest ih =>
    intro m c r h
    simp only [runCalls, List.zip_cons_cons, List.mem_cons] at h
    rcases h with h | h
    · obtain ⟨hc, hr⟩ := Prod.mk.injEq _ _ _ _ ▸ h
      subst hc
      subst hr
      simp only [runCalls]
      exact runCalls_preserves rest _ _ _ (get_session_find m c.api_name c.headers)
    · simp only [runCalls]
      exact ih _ _ _ h

theorem get_session_nodup (m : HTTPSessionManager) (name : String)
    (h : Option (List (String × String)))
    (hm : (m._sessions.map Prod.fst).Nodup) :
    (((get_session m name h).2)._sessions.map Prod.fst).Nodup := by
  unfold get_session
  cases hf : findSession m._sessions name with
  | some s => simpa [hf] using hm
  | none =>
    simp only [hf]
    rw [List.map_append]
    refine List.Nodup.append hm (List.nodup_singleton name) ?_
    intro a ha hb
    simp only [List.map_cons, List.map_nil, List.mem_singleton] at hb
    subst hb
    exact findSession_none_not_mem _ _ hf ha

theorem runCalls_nodup (cs : List SessionCall) :
    ∀ m : HTTPSessionManager, (m._sessions.map Prod.fst).Nodup →
      (((runCalls m cs).1)._sessions.map Prod.fst).Nodup := by
  induction cs with
  | nil => intro m hm; simpa [runCalls] using hm
  | cons c rest ih =>
    intro m hm
    simp only [runCalls]
    exact ih _ (get_session_nodup m c.api_name c.headers hm)

theorem closeLoop_spec (reg : List (String × Bool)) :
    closeLoop reg = (reg.map Prod.fst, (reg.filter Prod.snd).map Prod.fst) := by
  induction reg with
  | nil => rfl
  | cons hd tl ih =>
    obtain ⟨name, r⟩ := hd
    cases r <;> simp [closeLoop, closeSession, ih, List.filter_cons]

/-! ## Claim theorems: session registry -/

/-- C4: within one process lifetime, any two `get_session` calls with the
same name return the identical Session, and the registry keeps at most
one session per name (its keys are duplicate-free after any call
sequence). -/
theorem session_registry_unique (calls : List SessionCall) :
    (∀ (c1 c2 : SessionCall) (r1 r2 : Session),
      (c1, r1) ∈ calls.zip (runCalls initManager calls).2 →
      (c2, r2) ∈ calls.zip (runCalls initManager calls).2 →
      c1.api_name = c2.api_name → r1 = r2) ∧
    ((runCalls initManager calls).1._sessions.map Prod.fst).Nodup := by
  constructor
  · intro c1 c2 r1 r2 h1 h2 hname
    have e1 := runCalls_result_final calls initManager c1 r1 h1
    have e2 := runCalls_result_final calls initManager c2 r2 h2
    rw [hname] at e1
    exact Option.some.inj (e1.symm.trans e2)
  · exact runCalls_nodup calls initManager (by simp [initManager])

theorem session_registry_unique_witness :
    _create_session none 0 = _create_session none 0 ∧
    ((runCalls initManager
        [⟨"a", none⟩, ⟨"b", none⟩, ⟨"a", some [("k", "v")]⟩]).1._sessions.map
        Prod.fst).Nodup := by
  constructor
  · exact (session_registry_unique
      [⟨"a", none⟩, ⟨"b", none⟩, ⟨"a", some [("k", "v")]⟩]).1
      ⟨"a", none⟩ ⟨"a", some [("k", "v")]⟩ (_create_session none 0)
      (_create_session none 0) (by decide) (by decide) rfl
  · exact (session_registry_unique
      [⟨"a", none⟩, ⟨"b", none⟩, ⟨"a", some [("k", "v")]⟩]).2

/-- C10: a `get_session` call for a name already in the registry returns
the previously created Session and leaves the manager unchanged — its
`headers` argument is silently ignored — so custom headers take effect
only on the first call for a name, whose created session carries the
headers of the first call (or the defaults when that argument is falsy). -/
theorem get_session_headers_ignored (m : HTTPSessionManager) (name : String)
    (h1 h2 : Option (List (String × String))) :
    (∀ s : Session, findSession m._sessions name = some s →
      get_session m name h2 = (s, m)) ∧
    (findSession m._sessions name = none →
      (get_session (get_session m name h1).2 name h2).1
        = (get_session m name h1).1 ∧
      (get_session (get_session m name h1).2 name h2).2
        = (get_session m name h1).2 ∧
      (get_session m name h1).1.headers = headersOrDefault h1) := by
  constructor
  · exact fun s hs => get_session_found m name h2 s hs
  · intro hnone
    have hsecond := get_session_found (get_session m name h1).2 name h2
      (get_session m name h1).1 (get_session_find m name h1)
    refine ⟨congrArg Prod.fst hsecond, congrArg Prod.snd hsecond, ?_⟩
    unfold get_session
    simp [hnone, _create_session]

theorem get_session_headers_ignored_witness :
    (get_session (get_session initManager "reqres" (some [("Host", "reqres.in")])).2
        "reqres" none).1
      = (get_session initManager "reqres" (some [("Host", "reqres.in")])).1 ∧
    (get_session initManager "reqres" (some [("Host", "reqres.in")])).1.headers
      = headersOrDefault (some [("Host", "reqres.in")]) := by
  have h := (get_session_headers_ignored initManager "reqres"
      (some [("Host", "reqres.in")]) none).2 (by decide)
  exact ⟨h.1, h.2.2⟩

/-- C8: `close_all_sessions` attempts to close every registered session
whatever subset of closes raises, logs exactly the failing ones as
warnings, never raises itself, and leaves the registry empty. -/
theorem close_all_best_effort (reg : List (String × Bool)) :
    ∃ rep : CloseReport, close_all_sessions reg = Except.ok rep ∧
      rep.attempted = reg.map Prod.fst ∧
      rep.warnings = (reg.filter Prod.snd).map Prod.fst ∧
      rep.registry = [] := by
  refine ⟨_, rfl, ?_, ?_, rfl⟩
  · show (closeLoop reg).1 = reg.map Prod.fst
    rw [closeLoop_spec]
  · show (closeLoop reg).2 = (reg.filter Prod.snd).map Prod.fst
    rw [closeLoop_spec]

/-! ## Probe lemmas -/

theorem pyInt_ne_empty {s : String} {n : Int} (h : pyInt? s = some n) : s ≠ "" := by
  intro hs
  subst hs
  simp [pyInt?, digitsVal] at h

theorem probeIter_iterations (st : ProbeState) (o : ProbeOutcome) :
    (probeIter st o).iterations = st.iterations + 1 := by
  cases o with
  | exception => simp [probeIter]
  | response status ra =>
    by_cases h429 : status = 429
    · subst h429
      cases ra with
      | none => simp [probeIter]
      | some s =>
        by_cases hs : s = ""
        · subst hs; simp [probeIter]
        · cases hp : pyInt? s with
          | none => simp [probeIter, hs, hp]
          | some n => simp [probeIter, hs, hp]
    · by_cases h200 : status = 200
      · subst h200; simp [probeIter]
      · simp [probeIter, h429, h200]

theorem probeFold_iterations (outcomes : List ProbeOutcome) :
    ∀ st : ProbeState,
      (outcomes.foldl probeIter st).iterations = st.iterations + outcomes.length := by
  induction outcomes with
  | nil => intro st; simp
  | cons o rest ih =>
    intro st
    simp only [List.foldl_cons, List.length_cons]
    rw [ih, probeIter_iterations]
    omega

theorem probeIter_sleeps (st : ProbeState) (o : ProbeOutcome) :
    (probeIter st o).sleeps = st.sleeps ++ iterationSleeps o := by
  cases o with
  | exception => simp [probeIter, iterationSleeps, probeInit]
  | response status ra =>
    by_cases h429 : status = 429
    · subst h429
      cases ra with
      | none => simp [probeIter, iterationSleeps, probeInit]
      | some s =>
        by_cases hs : s = ""
        · subst hs; simp [probeIter, iterationSleeps, probeInit]
        · cases hp : pyInt? s with
          | none => simp [probeIter, iterationSleeps, probeInit, hs, hp]
          | some n => simp [probeIter, iterationSleeps, probeInit, hs, hp]
    · by_cases h200 : status = 200
      · subst h200; simp [probeIter, iterationSleeps, probeInit]
      · simp [probeIter, iterationSleeps, probeInit, h429, h200]

/-! ## Claim theorems: probe waits and termination, retry backoff -/

/-- C1: in the probe loop, a 429 iteration whose `Retry-After` header is
parseable as integer `N` sleeps exactly the wait `N` before the next
iteration, and a 429 iteration with no `Retry-After` header sleeps exactly
the fallback wait of 5 seconds. -/
theorem probe_retry_after_wait (st : ProbeState) (s : String) (n : Int)
    (h : pyInt? s = some n) :
    (probeIter st (.response 429 (some s))).sleeps = st.sleeps ++ [Sleep.retryWait n] ∧
    (probeIter st (.response 429 none)).sleeps = st.sleeps ++ [Sleep.retryWait 5] := by
  have hne : s ≠ "" := pyInt_ne_empty h
  constructor
  · simp [probeIter, hne, h]
  · simp [probeIter]

theorem probe_retry_after_wait_witness :
    pyInt? "7" = some 7 ∧
    (probeIter probeInit (.response 429 (some "7"))).sleeps
      = probeInit.sleeps ++ [Sleep.retryWait 7] :=
  ⟨by decide, (probe_retry_after_wait probeInit "7" 7 (by decide)).1⟩

/-- C3 counterexample: an iteration whose response is a 429 with no
`Retry-After` header sleeps only the fallback wait and never the
configured minimum inter-request delay — the 429 branch `continue`s past
the pacing sleep, so the claim that the minimum delay is slept after
every iteration fails. -/
theorem probe_delay_counterexample :
    (probeRun [ProbeOutcome.response 429 none]).sleeps = [Sleep.retryWait 5] ∧
    Sleep.interDelay ∉ (probeRun [ProbeOutcome.response 429 none]).sleeps := by
  decide

/-- C3 amended: the minimum inter-request delay is slept after every
iteration whose response status is not 429 (and that raises no
exception); a 429 iteration sleeps only its `Retry-After`/fallback wait
and skips the minimum delay, and an exception iteration sleeps nothing. -/
theorem probe_delay_amended (st : ProbeState) (o : ProbeOutcome) :
    (probeIter st o).sleeps = st.sleeps ++ iterationSleeps o ∧
    (∀ (status : Nat) (ra : Option String), status ≠ 429 →
      iterationSleeps (.response status ra) = [Sleep.interDelay]) ∧
    (∀ ra : Option String, Sleep.interDelay ∉ iterationSleeps (.response 429 ra)) ∧
    iterationSleeps .exception = [] := by
  refine ⟨probeIter_sleeps st o, ?_, ?_, by simp [iterationSleeps, probeIter, probeInit]⟩
  · intro status ra h429
    by_cases h200 : status = 200
    · subst h200; simp [iterationSleeps, probeIter, probeInit]
    · simp [iterationSleeps, probeIter, probeInit, h429, h200]
  · intro ra
    cases ra with
    | none => simp [iterationSleeps, probeIter, probeInit]
    | some s =>
      by_cases hs : s = ""
      · subst hs; simp [iterationSleeps, probeIter, probeInit]
      · cases hp : pyInt? s with
        | none => simp [iterationSleeps, probeIter, probeInit, hs, hp]
        | some n => simp [iterationSleeps, probeIter, probeInit, hs, hp]

theorem probe_delay_amended_witness :
    (probeIter probeInit (ProbeOutcome.response 404 none)).sleeps
      = probeInit.sleeps ++ iterationSleeps (ProbeOutcome.response 404 none) ∧
    iterationSleeps (ProbeOutcome.response 404 none) = [Sleep.interDelay] :=
  ⟨(probe_delay_amended probeInit (ProbeOutcome.response 404 none)).1,
   (probe_delay_amended probeInit (ProbeOutcome.response 404 none)).2.1 404 none
     (by decide)⟩

/-- C9: the probe loop executes exactly one iteration per outcome and
terminates after exactly `max_requests` iterations whenever the outcome
sequence fills the `range(max_requests)` budget; an exception outcome is
caught and only advances the loop, changing no counter and sleeping
nothing. -/
theorem probe_terminates (outcomes : List ProbeOutcome) :
    (probeRun outcomes).iterations = outcomes.length ∧
    (∀ st : ProbeState,
      probeIter st ProbeOutcome.exception = { st with iterations := st.iterations + 1 }) ∧
    (outcomes.length = RATE_LIMIT_CONFIG.max_requests →
      (probeRun outcomes).iterations = RATE_LIMIT_CONFIG.max_requests) := by
  have hrun : (probeRun outcomes).iterations = outcomes.length := by
    unfold probeRun
    rw [probeFold_iterations]
    simp [probeInit]
  exact ⟨hrun, fun st => by simp [probeIter], fun h => by rw [hrun, h]⟩

theorem probe_terminates_witness :
    (List.replicate 100 ProbeOutcome.exception).length = RATE_LIMIT_CONFIG.max_requests ∧
    (probeRun (List.replicate 100 ProbeOutcome.exception)).iterations
      = RATE_LIMIT_CONFIG.max_requests :=
  ⟨by simp [RATE_LIMIT_CONFIG],
   (probe_terminates (List.replicate 100 ProbeOutcome.exception)).2.2
     (by simp [RATE_LIMIT_CONFIG])⟩

/-- C2 counterexample: under the configured policy (backoff factor 2,
urllib3 transport), the delay before the first retried attempt is 0 and
before the second is 4 time units, not `base^(n-1)` (which would give 1
and 2): the first retry is immediate and later delays are
`factor * 2^(n-1)`. -/
theorem backoff_counterexample :
    backoffDelay 1 = 0 ∧ backoffDelay 2 = 4 ∧
    ¬(backoffDelay 1 = 2 ^ (1 - 1) ∧ backoffDelay 2 = 2 ^ (2 - 1)) := by
  norm_num [backoffDelay, get_backoff_time, retry_strategy, RATE_LIMIT_CONFIG,
    DEFAULT_BACKOFF_MAX]

/-- C2 amended: under the configured policy (maximum 3 attempts, backoff
factor 2) the delay slept before retried attempt `n` (1-indexed) is 0 for
`n = 1` and `2 * 2^(n-1) = 2^n` time units for later attempts, and every
backoff delay is capped by the fixed 120-second transport maximum
(`DEFAULT_BACKOFF_MAX`), not by the per-request timeout budget. -/
theorem backoff_amended (n : Nat) (h1 : 1 ≤ n) (h2 : n ≤ retry_strategy.total) :
    backoffDelay n = (if n = 1 then 0 else (2:ℚ) ^ n) ∧
    ∀ m : Nat, backoffDelay m ≤ DEFAULT_BACKOFF_MAX := by
  constructor
  · have h3 : n ≤ 3 := by
      simpa [retry_strategy, RATE_LIMIT_CONFIG] using h2
    interval_cases n <;>
      norm_num [backoffDelay, get_backoff_time, retry_strategy, RATE_LIMIT_CONFIG,
        DEFAULT_BACKOFF_MAX]
  · intro m
    unfold backoffDelay get_backoff_time
    split
    · norm_num [DEFAULT_BACKOFF_MAX]
    · exact min_le_left _ _

theorem backoff_amended_witness :
    (1 ≤ 2 ∧ 2 ≤ retry_strategy.total) ∧
    backoffDelay 2 = (if 2 = 1 then 0 else (2:ℚ) ^ 2) :=
  ⟨⟨by norm_num, by norm_num [retry_strategy, RATE_LIMIT_CONFIG]⟩,
   (backoff_amended 2 (by norm_num)
     (by norm_num [retry_strategy, RATE_LIMIT_CONFIG])).1⟩

/-! ## JSON schema validation (`JSONPLACEHOLDER_POST_SCHEMA` in
`config.py` lines 114-124, `validate_json_schema` in `api_automation.py`
lines 152-169) -/

/-- A JSON document of the shapes the suite validates (the numbers in
every validated document are integers). -/
inductive Json where
  | null
  | bool (b : Bool)
  | int (n : Int)
  | str (s : String)
  | arr (elems : List Json)
  | obj (fields : List (String × Json))

/-- One property subschema as declared in `JSONPLACEHOLDER_POST_SCHEMA`:
an integer with a minimum, or a string with a minimum length. -/
inductive FieldSchema where
  | integerMin (minimum : Int)
  | stringMinLength (minLength : Nat)
  deriving Repr, DecidableEq

/-- An object schema of the shape declared in `config.py`: typed
properties, required keys, and the additional-properties policy. -/
structure ObjectSchema where
  properties : List (String × FieldSchema)
  required : List String
  additionalProperties : Bool
  deriving Repr, DecidableEq

/-- `JSONPLACEHOLDER_POST_SCHEMA` (`config.py` lines 114-124). -/
def JSONPLACEHOLDER_POST_SCHEMA : ObjectSchema :=
  { properties :=
      [("userId", .integerMin 1), ("id", .integerMin 1),
       ("title", .stringMinLength 1), ("body", .stringMinLength 1)]
    required := ["userId", "id", "title", "body"]
    additionalProperties := false }

/-- First binding of a key in the field list of an object. -/
def lookupField : List (String × Json) → String → Option Json
  | [], _ => none
  | kv :: rest, k => if kv.1 = k then some kv.2 else lookupField rest k

/-- jsonschema validation of one declared property; per jsonschema
semantics a JSON boolean is not an integer. -/
def checkField : FieldSchema → Json → Bool
  | .integerMin m, .int n => decide (m ≤ n)
  | .integerMin _, _ => false
  | .stringMinLength m, .str s => decide (m ≤ s.length)
  | .stringMinLength _, _ => false

/-- jsonschema validation of a document against an object schema of this
shape: the document must be an object (`type: object`), every required
key must be present, every declared key that is present must satisfy its
subschema, and when `additionalProperties` is false every key must be
declared. -/
def validateObject (sch : ObjectSchema) : Json → Bool
  | .obj fields =>
    sch.required.all (fun r => (lookupField fields r).isSome) &&
    sch.properties.all (fun p =>
      match lookupField fields p.1 with
      | none => true
      | some v => checkField p.2 v) &&
    (sch.additionalProperties ||
      fields.all (fun kv => sch.properties.any (fun p => p.1 == kv.1)))
  | _ => false

/-- `validate_json_schema` (`api_automation.py` lines 152-169): re-raises
the `ValidationError` when validation fails, returns normally otherwise. -/
def validate_json_schema (data : Json) (schema : ObjectSchema) : Except String Unit :=
  if validateObject schema data then Except.ok () else Except.error "ValidationError"

/-! ## Orchestrator `run_all_api_tests` (`api_automation.py` lines 588-631) -/

/-- Behavior of one scenario function: completes normally or raises. -/
inductive ScenarioResult where
  | ok
  | raises
  deriving Repr, DecidableEq

/-- Number of scenarios in a list that complete normally. -/
def countOk : List ScenarioResult → Nat
  | [] => 0
  | .ok :: rest => countOk rest + 1
  | .raises :: rest => countOk rest

/-- Number of scenarios in a list that raise. -/
def countRaises : List ScenarioResult → Nat
  | [] => 0
  | .ok :: rest => countRaises rest
  | .raises :: rest => countRaises rest + 1

/-- The `for` loop over `test_functions` (lines 608-615): each scenario
runs inside `try/except Exception`; a raising scenario is logged, counted
as one failure, and the loop continues with the next scenario.
Accumulates (executed, successful_tests, failed_tests). -/
def scenarioLoop : Nat → Nat → Nat → List ScenarioResult → Nat × Nat × Nat
  | e, s, f, [] => (e, s, f)
  | e, s, f, .ok :: rest => scenarioLoop (e + 1) (s + 1) f rest
  | e, s, f, .raises :: rest => scenarioLoop (e + 1) s (f + 1) rest

/-- Observable outcome of one `run_all_api_tests` call. -/
structure ApiRunReport where
  executed : Nat
  successful_tests : Nat
  failed_tests : Nat
  closeCalls : Nat
  raised : Bool
  deriving Repr, DecidableEq

/-- The final report block (lines 618-622): printing the success rate
divides by `successful + failed`, raising `ZeroDivisionError` when no
scenario ran; `reportRaises` injects any other fault while reporting. -/
def reportStep (s f : Nat) (reportRaises : Bool) : Except String Unit :=
  if s + f = 0 then Except.error "ZeroDivisionError"
  else if reportRaises then Except.error "report failure" else Except.ok ()

/-- `run_all_api_tests` (lines 588-631): run every scenario, counting
successes and failures; the loop and report run inside the outer
`try/except Exception`, which catches a report fault; the `finally`
block closes all sessions exactly once on every path. `raised` records
whether the call propagates an exception. -/
def run_all_api_tests (scenarios : List ScenarioResult) (reportRaises : Bool) :
    ApiRunReport :=
  let c := scenarioLoop 0 0 0 scenarios
  let body := reportStep c.2.1 c.2.2 reportRaises
  let afterTry : Except String Unit :=
    match body with
    | Except.error _ => Except.ok ()
    | r => r
  { executed := c.1
    successful_tests := c.2.1
    failed_tests := c.2.2
    closeCalls := 1
    raised := match afterTry with
      | Except.ok _ => false
      | Except.error _ => true }

/-! ## Test runner (`test_runner.py`) -/

/-- Environment facts `check_environment` examines. -/
structure PyEnvironment where
  pythonMajor : Nat
  pythonMinor : Nat
  seleniumInstalled : Bool
  requestsInstalled : Bool
  jsonschemaInstalled : Bool
  deriving Repr, DecidableEq

/-- `check_environment` (`test_runner.py` lines 175-215): Python 3.8+ and
the three libraries, each missing piece returning `False` early. -/
def check_environment (env : PyEnvironment) : Bool :=
  if env.pythonMajor < 3 ∨ (env.pythonMajor = 3 ∧ env.pythonMinor < 8) then false
  else env.seleniumInstalled && env.requestsInstalled && env.jsonschemaInstalled

/-- Point at which the operator Ctrl+C (KeyboardInterrupt) arrives, if
at all. -/
inductive InterruptPoint where
  | noInterrupt
  | duringStartup
  | beforeRun
  | duringRun
  deriving Repr, DecidableEq

/-- `_execute_test_suite` (`test_runner.py` lines 88-127): returns `True`
exactly when the suite function completes without raising (its
`except Exception` turns a raising suite into `False`). -/
def _execute_test_suite (suiteRaises : Bool) : Bool := !suiteRaises

/-- `TestRunner.run_all_tests` (lines 44-86): runs the web suite then the
API suite; its `except KeyboardInterrupt` clause catches an interruption
arriving during the run and returns `False`; otherwise the result is the
conjunction of the two suite outcomes. -/
def run_all_tests (webRaises apiRaises interrupted : Bool) : Bool :=
  if interrupted then false
  else _execute_test_suite webRaises && _execute_test_suite apiRaises

/-- How `main`-level control flow ends: a `sys.exit` code, a
KeyboardInterrupt escaping `main`, or another fatal exception. -/
inductive MainOutcome where
  | exitCode (c : Nat)
  | keyInterrupt
  | fatal
  deriving Repr, DecidableEq

/-- `main` (`test_runner.py` lines 250-278): usage info and environment
check (exit 1 when the check fails), the pre-run pause, then the runner;
exit 0 on success, 1 otherwise. An interruption during startup or the
pause escapes `main`; one during the run is absorbed by
`run_all_tests`. -/
def main (env : PyEnvironment) (webRaises apiRaises : Bool)
    (intr : InterruptPoint) : MainOutcome :=
  match intr with
  | .duringStartup => .keyInterrupt
  | _ =>
    if !check_environment env then .exitCode 1
    else
      match intr with
      | .beforeRun => .keyInterrupt
      | i =>
        if run_all_tests webRaises apiRaises (decide (i = .duringRun)) then .exitCode 0
        else .exitCode 1

/-- The `__main__` guard (lines 284-293): `main()` runs under
`except KeyboardInterrupt: sys.exit(130)` and
`except Exception: sys.exit(1)`; the process exit code. -/
def processExitCode (env : PyEnvironment) (webRaises apiRaises : Bool)
    (intr : InterruptPoint) : Nat :=
  match main env webRaises apiRaises intr with
  | .exitCode c => c
  | .keyInterrupt => 130
  | .fatal => 1

/-- An environment satisfying every prerequisite: Python 3.10 with the
three required libraries installed. -/
def goodEnv : PyEnvironment :=
  { pythonMajor := 3, pythonMinor := 10
    seleniumInstalled := true, requestsInstalled := true
    jsonschemaInstalled := true }

/-! ## Orchestrator and runner lemmas -/

theorem scenarioLoop_spec (l : List ScenarioResult) :
    ∀ e s f : Nat,
      scenarioLoop e s f l = (e + l.length, s + countOk l, f + countRaises l) := by
  induction l with
  | nil => intro e s f; simp [scenarioLoop, countOk, countRaises]
  | cons hd tl ih =>
    intro e s f
    cases hd <;> simp [scenarioLoop, countOk, countRaises, ih] <;> omega

theorem run_all_api_tests_spec (l : List ScenarioResult) (rr : Bool) :
    run_all_api_tests l rr =
      { executed := l.length, successful_tests := countOk l,
        failed_tests := countRaises l, closeCalls := 1, raised := false } := by
  unfold run_all_api_tests
  rw [scenarioLoop_spec]
  simp only [Nat.zero_add]
  cases hb : reportStep (countOk l) (countRaises l) rr with
  | ok u => cases u; simp [hb]
  | error e => simp [hb]

/-! ## Claim theorems: schema, orchestrator, exit codes -/

/-- C7: against the JSONPlaceholder post schema, a document missing any
required field fails validation; a document containing exactly the fields
userId, id, title, body with integer userId and id at least 1 and
non-empty string title and body passes; and such a document carrying one
additional undeclared field fails, because the schema sets
additionalProperties to false. -/
theorem post_schema_validation :
    (∀ (fields : List (String × Json)) (r : String),
      r ∈ JSONPLACEHOLDER_POST_SCHEMA.required → lookupField fields r = none →
      validate_json_schema (.obj fields) JSONPLACEHOLDER_POST_SCHEMA
        = Except.error "ValidationError") ∧
    (∀ (u i : Int) (t b : String), 1 ≤ u → 1 ≤ i → t ≠ "" → b ≠ "" →
      validate_json_schema
        (.obj [("userId", .int u), ("id", .int i), ("title", .str t), ("body", .str b)])
        JSONPLACEHOLDER_POST_SCHEMA = Except.ok ()) ∧
    (∀ (u i : Int) (t b k : String) (v : Json), 1 ≤ u → 1 ≤ i → t ≠ "" → b ≠ "" →
      k ∉ JSONPLACEHOLDER_POST_SCHEMA.properties.map Prod.fst →
      validate_json_schema
        (.obj [("userId", .int u), ("id", .int i), ("title", .str t), ("body", .str b),
          (k, v)])
        JSONPLACEHOLDER_POST_SCHEMA = Except.error "ValidationError") := by
  have strLen : ∀ t : String, t ≠ "" → 1 ≤ t.length := by
    intro t ht
    cases t with
    | mk data =>
      cases data with
      | nil => simp at ht
      | cons c cs => simp [String.length]
  refine ⟨?_, ?_, ?_⟩
  · intro fields r hr hnone
    have hfalse : ¬ (validateObject JSONPLACEHOLDER_POST_SCHEMA (.obj fields) = true) := by
      intro hval
      simp only [validateObject, Bool.and_eq_true, List.all_eq_true] at hval
      have := hval.1.1 r hr
      rw [hnone] at this
      simp at this
    simp [validate_json_schema, hfalse]
  · intro u i t b hu hi ht hb
    simp [validate_json_schema, validateObject, JSONPLACEHOLDER_POST_SCHEMA,
      lookupField, checkField, hu, hi, strLen t ht, strLen b hb]
  · intro u i t b k v hu hi ht hb hk
    simp only [JSONPLACEHOLDER_POST_SCHEMA, List.map_cons, List.map_nil,
      List.mem_cons, List.not_mem_nil, or_false, not_or] at hk
    obtain ⟨hk1, hk2, hk3, hk4⟩ := hk
    have e1 : ("userId" == k) = false := beq_eq_false_iff_ne.mpr (fun h => hk1 h.symm)
    have e2 : ("id" == k) = false := beq_eq_false_iff_ne.mpr (fun h => hk2 h.symm)
    have e3 : ("title" == k) = false := beq_eq_false_iff_ne.mpr (fun h => hk3 h.symm)
    have e4 : ("body" == k) = false := beq_eq_false_iff_ne.mpr (fun h => hk4 h.symm)
    simp [validate_json_schema, validateObject, JSONPLACEHOLDER_POST_SCHEMA,
      lookupField, checkField, e1, e2, e3, e4]

theorem post_schema_validation_witness :
    validate_json_schema
      (.obj [("userId", .int 1), ("id", .int 99), ("title", .str "t"), ("body", .str "x")])
      JSONPLACEHOLDER_POST_SCHEMA = Except.ok () ∧
    validate_json_schema (.obj [("userId", .int 1)]) JSONPLACEHOLDER_POST_SCHEMA
      = Except.error "ValidationError" ∧
    validate_json_schema
      (.obj [("userId", .int 1), ("id", .int 1), ("title", .str "t"), ("body", .str "x"),
        ("extra", .null)])
      JSONPLACEHOLDER_POST_SCHEMA = Except.error "ValidationError" := by
  refine ⟨post_schema_validation.2.1 1 99 "t" "x" (by norm_num) (by norm_num)
      (by decide) (by decide), ?_, ?_⟩
  · exact post_schema_validation.1 [("userId", .int 1)] "id" (by decide)
      (by simp [lookupField])
  · exact post_schema_validation.2.2 1 1 "t" "x" "extra" .null (by norm_num)
      (by norm_num) (by decide) (by decide) (by decide)

/-- C5: for every ordered scenario list, a raising scenario is recorded
as exactly one failure, every scenario runs (one failure never stops the
rest), the final report counts exactly the observed successes and
failures, and session teardown executes exactly once even when a
scenario or the report raises; in particular three scenarios whose
second raises yield 2 successes and 1 failure. -/
theorem orchestrator_counts (scenarios : List ScenarioResult) (reportRaises : Bool) :
    (run_all_api_tests scenarios reportRaises).executed = scenarios.length ∧
    (run_all_api_tests scenarios reportRaises).successful_tests = countOk scenarios ∧
    (run_all_api_tests scenarios reportRaises).failed_tests = countRaises scenarios ∧
    (run_all_api_tests scenarios reportRaises).closeCalls = 1 ∧
    (run_all_api_tests scenarios reportRaises).raised = false ∧
    (run_all_api_tests [.ok, .raises, .ok] reportRaises).successful_tests = 2 ∧
    (run_all_api_tests [.ok, .raises, .ok] reportRaises).failed_tests = 1 := by
  simp [run_all_api_tests_spec, countOk, countRaises]

/-- C6 counterexample: with every prerequisite satisfied, an interruption
arriving during `run_all_tests` is caught there and the process exits
with code 1, not a code distinct from 0 and 1; and a run whose API suite
records a failing scenario still exits 0, because `run_all_api_tests`
swallows scenario failures, so the suite function does not raise and the
suite counts as successful. -/
theorem exit_code_counterexample :
    processExitCode goodEnv false false .duringRun = 1 ∧
    (run_all_api_tests [.raises] false).failed_tests = 1 ∧
    (run_all_api_tests [.raises] false).raised = false ∧
    processExitCode goodEnv false ((run_all_api_tests [.raises] false).raised)
      .noInterrupt = 0 := by
  refine ⟨rfl, rfl, rfl, rfl⟩

/-- C6 amended: the exit code is 0 exactly when the environment check
passes, no interruption occurs and neither suite function raises
(scenario failures recorded inside the API suite never make it raise, so
they do not affect the exit code); 130 exactly when the interruption
arrives before `run_all_tests` starts (during startup, or during the
pre-run pause with a satisfied environment); and 1 in every other case,
including a user interruption arriving during `run_all_tests`. -/
theorem exit_code_amended (env : PyEnvironment) (webRaises apiRaises : Bool)
    (intr : InterruptPoint) :
    processExitCode env webRaises apiRaises intr =
      (match intr with
       | .duringStartup => 130
       | .beforeRun => if check_environment env then 130 else 1
       | .duringRun => 1
       | .noInterrupt =>
         if check_environment env && !webRaises && !apiRaises then 0 else 1) ∧
    (∀ (scenarios : List ScenarioResult) (rr : Bool),
      (run_all_api_tests scenarios rr).raised = false) := by
  constructor
  · cases intr <;>
      cases hce : check_environment env <;>
        cases webRaises <;> cases apiRaises <;>
          simp [processExitCode, main, run_all_tests, _execute_test_suite, hce]
  · intro scenarios rr
    simp [run_all_api_tests_spec]

end TechnicalTest
